import Mathlib

/-!
Verification of `src/lib/util/get-npmignore.js`: the ignore-rule resolution
engine that decides whether a relative file path would be excluded from an
npm package publish.

The JavaScript source is shallowly embedded here.  External collaborators
(the manifest locator `get-package-json`, the filesystem `exists` check,
the `ignore` glob engine and the `path` module's `join`/`dirname`) are kept
abstract as fields of an `Env` record, since the core logic only composes
their results; `path.basename`, the trailing-slash strip and the
`NEVER_IGNORED` regular expression are modelled concretely because the
claims depend on their exact behaviour.
-/

namespace GetNpmignore

/-- The JavaScript value found in the manifest's `files` array at one index:
either a string entry or any non-string value (which the source skips). -/
inductive FilesEntry where
  | str (s : String)
  | nonString
deriving DecidableEq, Repr

/-- The JavaScript value of the manifest's `files` field as classified by
`parseWhiteList`'s guard `!files || !Array.isArray(files)`:
`absent` is a falsy value (missing / `null` / `undefined`), `notArray` a
truthy non-array value, `arr` an actual array. -/
inductive FilesField where
  | absent
  | notArray
  | arr (entries : List FilesEntry)
deriving DecidableEq, Repr

/-- A parsed `package.json` object as consumed by the source: its absolute
file path, its `files` field, and its `main` field (`some` exactly when
`typeof p.main === "string"`). -/
structure PackageJson where
  filePath : String
  files : FilesField
  main : Option String
deriving DecidableEq, Repr

/-- The resolved object's single capability: `match : String → Bool`. -/
abbrev Matcher := String → Bool

/-- Modelled from the spec: the cache collaborator (`./cache`, not part of
the embedded source) is a key-value store `get/put` keyed by manifest file
path; we represent its state as an association list. -/
abbrev CacheState := List (String × Matcher)

/-- Modelled from the spec: `cache.get(key)` returns the stored Matcher or
absence. -/
def cacheGet (c : CacheState) (k : String) : Option Matcher :=
  (c.find? (fun e => e.1 == k)).map (fun e => e.2)

/-- Modelled from the spec: `cache.put(key, value)` stores `value` under
`key` (later entries shadow earlier ones). -/
def cachePut (c : CacheState) (k : String) (v : Matcher) : CacheState :=
  (k, v) :: c

/-- The external collaborators of the source module, kept abstract:
`getPackageJson` is the manifest locator, `dirname`/`join` are Node's
`path.dirname`/`path.join`, `existsFile` is the `exists` helper, and the
two `compile…` fields are the `ignore` engine's `createFilter` (which
returns `true` for paths that are KEPT, i.e. not matched by the pattern
set): `compilePatterns` after a sequence of `addPattern` calls,
`compileFile pathOfIgnoreFile` after `addIgnoreFile pathOfIgnoreFile`. -/
structure Env where
  getPackageJson : String → Option PackageJson
  dirname : String → String
  join : String → String → String
  existsFile : String → Bool
  compilePatterns : List String → String → Bool
  compileFile : String → String → Bool

/-- `alwaysFalse`: returns `false` always. -/
def alwaysFalse : Matcher := fun _ => false

/-- `and(f, g)`: the pointwise logical-and of two predicates. -/
def and' (f g : Matcher) : Matcher := fun filePath => f filePath && g filePath

/-- `or(f, g)`: the pointwise logical-or of two predicates. -/
def or' (f g : Matcher) : Matcher := fun filePath => f filePath || g filePath

/-- `not(f)`: the pointwise logical-not of a predicate. -/
def not' (f : Matcher) : Matcher := fun filePath => !(f filePath)

/-- ASCII lower-casing of one character (the `NEVER_IGNORED` regular
expression carries the `i` flag and all its letters are ASCII). -/
def lowerChar (c : Char) : Char :=
  if 'A' ≤ c && c ≤ 'Z' then Char.ofNat (c.toNat + 32) else c

/-- Drops the longest suffix of characters satisfying `p`. -/
def dropTrailing (p : Char → Bool) (l : List Char) : List Char :=
  (l.reverse.dropWhile p).reverse

/-- Splits a character list on a separator character; a list with no
separator yields one chunk, and separators delimit possibly-empty
chunks. -/
def splitChar (sep : Char) (l : List Char) : List (List Char) :=
  l.foldr
    (fun c acc =>
      if c == sep then [] :: acc
      else
        match acc with
        | h :: t => (c :: h) :: t
        | [] => [[c]])
    [[]]

/-- `f.replace(TAIL_SLASH, "")` where `TAIL_SLASH = /\/+$/`: strips every
trailing slash. -/
def stripTailSlash (s : String) : String :=
  String.mk (dropTrailing (fun c => c == '/') s.data)

/-- Node's `path.basename` on POSIX relative paths: trailing slashes are
stripped, then the component after the last `/` is returned (degenerate
all-slash inputs are not needed by the source's callers). -/
def basename (p : String) : String :=
  let q := dropTrailing (fun c => c == '/') p.data
  if q.isEmpty then String.mk q
  else String.mk ((splitChar '/' q).getLastD q)

/-- One alternative of the `NEVER_IGNORED` regular expression:
`base(\.[^.]*)?` anchored — the lower-cased name equals `base`, or is
`base` followed by a dot and a dot-free suffix. -/
def matchesBaseOptExt (base l : List Char) : Bool :=
  l == base ||
    (List.isPrefixOf (base ++ ['.']) l &&
      !((l.drop (base.length + 1)).contains '.'))

/-- `NEVER_IGNORED.test`: the case-insensitive anchored regular expression
`^(?:readme\.[^.]*|(?:licen[cs]e|changes|changelog|history)(?:\.[^.]*)?)$`.
Note `readme` requires the dot; the other names take an optional single
extension. -/
def NEVER_IGNORED (s : String) : Bool :=
  let l := s.data.map lowerChar
  (List.isPrefixOf "readme.".data l && !((l.drop 7).contains '.')) ||
    matchesBaseOptExt "license".data l ||
    matchesBaseOptExt "licence".data l ||
    matchesBaseOptExt "changes".data l ||
    matchesBaseOptExt "changelog".data l ||
    matchesBaseOptExt "history".data l

/-- `filterNeverIgnoredFiles(p)`: the predicate that is `true` when a file
is eligible to be ignored — it is `false` for the resolved `main` entry
(compared by joined-path equality; `mainFilePath` is `null` when `main` is
not a string, modelled as `Option`), for the literal path
`"package.json"`, and for `NEVER_IGNORED` basenames. -/
def filterNeverIgnoredFiles (env : Env) (p : PackageJson) : Matcher :=
  let basedir := env.dirname p.filePath
  let mainFilePath : Option String := p.main.map (env.join basedir)
  fun filePath =>
    (some (env.join basedir filePath) != mainFilePath) &&
    (filePath != "package.json") &&
    !(NEVER_IGNORED (basename filePath))

/-- The pattern lines accumulated by `parseWhiteList`'s loop: the Ignore
object is seeded with `"*"`, then each string entry `f` contributes
`"!" + f` and `"!" + f.replace(TAIL_SLASH, "") + "/**"`, in order;
non-string entries contribute nothing. -/
def whiteListPatterns (entries : List FilesEntry) : List String :=
  entries.foldl
    (fun acc e =>
      match e with
      | FilesEntry.str f =>
          acc ++ ["!" ++ f, "!" ++ stripTailSlash f ++ "/**"]
      | FilesEntry.nonString => acc)
    ["*"]

/-- The two re-include pattern lines one string entry contributes to the
whitelist Pattern Set (`"!" + f` then `"!" + stripped + "/**"`); a
non-string entry contributes none. -/
def entryPatterns (e : FilesEntry) : List String :=
  match e with
  | FilesEntry.str f => ["!" ++ f, "!" ++ stripTailSlash f ++ "/**"]
  | FilesEntry.nonString => []

/-- `parseWhiteList(files)`: `null` when `files` is falsy or not an array;
otherwise the negation of the filter compiled from `whiteListPatterns`. -/
def parseWhiteList (env : Env) (files : FilesField) : Option Matcher :=
  match files with
  | FilesField.absent => none
  | FilesField.notArray => none
  | FilesField.arr entries =>
      some (not' (env.compilePatterns (whiteListPatterns entries)))

/-- `parseNpmignore(basedir, filesFieldExists)`: prefer
`basedir/.npmignore`; when it is absent return `null` if the `files`
field produced a predicate, else fall back to `basedir/.gitignore`;
return `null` when that is also absent.  A found file is compiled and the
filter negated. -/
def parseNpmignore (env : Env) (basedir : String) (filesFieldExists : Bool) :
    Option Matcher :=
  let npmPath := env.join basedir ".npmignore"
  if env.existsFile npmPath then
    some (not' (env.compileFile npmPath))
  else if filesFieldExists then
    none
  else
    let gitPath := env.join basedir ".gitignore"
    if env.existsFile gitPath then
      some (not' (env.compileFile gitPath))
    else
      none

/-- `getNpmignore(startPath)`: resolves the manifest, consults the cache,
builds the two optional predicates, combines them with
`filterNeverIgnoredFiles`, stores the result in the cache and returns it
together with the updated cache state.  With no manifest the match is
`alwaysFalse` and the cache is untouched. -/
def getNpmignore (env : Env) (cache : CacheState) (startPath : String) :
    Matcher × CacheState :=
  match env.getPackageJson startPath with
  | none => (alwaysFalse, cache)
  | some p =>
    match cacheGet cache p.filePath with
    | some data => (data, cache)
    | none =>
      let filesIgnore := parseWhiteList env p.files
      let npmignoreIgnore :=
        parseNpmignore env (env.dirname p.filePath) filesIgnore.isSome
      let m : Matcher :=
        match filesIgnore, npmignoreIgnore with
        | some f, some g => and' (filterNeverIgnoredFiles env p) (or' f g)
        | some f, none => and' (filterNeverIgnoredFiles env p) f
        | none, some g => and' (filterNeverIgnoredFiles env p) g
        | none, none => alwaysFalse
      (m, cachePut cache p.filePath m)

/-! ### Concrete test environments

Concrete instantiations of the abstract collaborators, used to evaluate the
theorems below on closed inputs. -/

/-- A concrete `path.join` for already-normalised POSIX fragments. -/
def testJoin (a b : String) : String := a ++ "/" ++ b

/-- A concrete `path.dirname` for relative POSIX paths: everything before
the last slash. -/
def testDirname (s : String) : String :=
  String.mk (((splitChar '/' s.data).dropLast.intersperse ['/']).flatten)

/-- A manifest with no `files` field and `main: "index.js"`. -/
def pkgStar : PackageJson :=
  { filePath := "pkg/package.json"
    files := FilesField.absent
    main := some "index.js" }

/-- Environment in which the manifest is `pkgStar` and `pkg/.npmignore`
exists containing `*`: the compiled keep-filter rejects every path. -/
def envStar : Env :=
  { getPackageJson := fun s => if s == "start" then some pkgStar else none
    dirname := testDirname
    join := testJoin
    existsFile := fun f => f == "pkg/.npmignore"
    compilePatterns := fun _ _ => false
    compileFile := fun _ _ => false }

/-- A manifest with `files: ["lib"]` and no `main`. -/
def pkgBoth : PackageJson :=
  { filePath := "pkg/package.json"
    files := FilesField.arr [FilesEntry.str "lib"]
    main := none }

/-- Environment in which the manifest is `pkgBoth` and `pkg/.npmignore`
exists; the pattern engine keeps a path exactly when some pattern is its
literal re-inclusion, and the ignore file keeps only `keep.txt`. -/
def envBoth : Env :=
  { getPackageJson := fun s => if s == "start" then some pkgBoth else none
    dirname := testDirname
    join := testJoin
    existsFile := fun f => f == "pkg/.npmignore"
    compilePatterns := fun pats q => pats.contains ("!" ++ q)
    compileFile := fun _ q => q == "keep.txt" }

/-- The whitelist predicate produced in `envBoth`. -/
def fBoth : Matcher :=
  not' (envBoth.compilePatterns (whiteListPatterns [FilesEntry.str "lib"]))

/-- The ignore-file predicate produced in `envBoth`. -/
def gBoth : Matcher :=
  not' (envBoth.compileFile (testJoin "pkg" ".npmignore"))

/-- A manifest with neither `files` nor `main`. -/
def pkgPlain : PackageJson :=
  { filePath := "pkg/package.json"
    files := FilesField.absent
    main := none }

/-- Environment in which the manifest is `pkgPlain` and no ignore file
exists at all. -/
def envNone : Env :=
  { getPackageJson := fun s => if s == "start" then some pkgPlain else none
    dirname := testDirname
    join := testJoin
    existsFile := fun _ => false
    compilePatterns := fun _ _ => true
    compileFile := fun _ _ => true }

/-! ### Shared lemmas -/

/-- If a path's basename matches `NEVER_IGNORED`, the never-ignored filter
rejects it. -/
theorem filter_false_of_never (env : Env) (p : PackageJson) (q : String)
    (h : NEVER_IGNORED (basename q) = true) :
    filterNeverIgnoredFiles env p q = false := by
  simp [filterNeverIgnoredFiles, h]

/-- A freshly computed Matcher (manifest found, cache miss) never reports
ignorable a path that the never-ignored filter rejects. -/
theorem match_eq_false_of_filter (env : Env) (cache : CacheState)
    (s : String) (p : PackageJson) (hp : env.getPackageJson s = some p)
    (hc : cacheGet cache p.filePath = none) (q : String)
    (hf : filterNeverIgnoredFiles env p q = false) :
    (getNpmignore env cache s).1 q = false := by
  simp only [getNpmignore, hp, hc]
  rcases h1 : parseWhiteList env p.files with _ | f
  · rcases h2 : parseNpmignore env (env.dirname p.filePath) false with _ | g <;>
      simp [h2, and', alwaysFalse, hf]
  · rcases h2 : parseNpmignore env (env.dirname p.filePath) true with _ | g <;>
      simp [h2, and', alwaysFalse, hf]

/-- A present value never compares `==`-equal to an absent one. -/
theorem some_bne_none (a : String) :
    ((some a != (none : Option String))) = true := rfl

/-- Unrolling the whitelist loop: folding the two-pattern append step over
the entries from any seed appends each entry's contribution in order. -/
theorem foldl_entryPatterns (entries : List FilesEntry) (init : List String) :
    entries.foldl
      (fun acc e =>
        match e with
        | FilesEntry.str f =>
            acc ++ ["!" ++ f, "!" ++ stripTailSlash f ++ "/**"]
        | FilesEntry.nonString => acc)
      init = init ++ entries.flatMap entryPatterns := by
  induction entries generalizing init with
  | nil => simp
  | cons e t ih => cases e <;> simp [ih, entryPatterns]

/-! ### Claims -/

/-- C1: for every manifest resolved fresh (found, cache miss), when both
the whitelist predicate and the ignore-file predicate are produced the
Matcher's match is pointwise `and'` of the never-ignored filter with the
`or'` of the two; when exactly one is produced, it is pointwise `and'` of
the filter with that one (the ignore-file parser having been called with
`filesFieldExists` mirroring whether the whitelist was produced). -/
theorem getNpmignore_combinator (env : Env) (cache : CacheState) (s : String)
    (p : PackageJson) (hp : env.getPackageJson s = some p)
    (hc : cacheGet cache p.filePath = none) :
    (∀ f g, parseWhiteList env p.files = some f →
      parseNpmignore env (env.dirname p.filePath) true = some g →
      ∀ q, (getNpmignore env cache s).1 q =
        and' (filterNeverIgnoredFiles env p) (or' f g) q) ∧
    (∀ f, parseWhiteList env p.files = some f →
      parseNpmignore env (env.dirname p.filePath) true = none →
      ∀ q, (getNpmignore env cache s).1 q =
        and' (filterNeverIgnoredFiles env p) f q) ∧
    (∀ g, parseWhiteList env p.files = none →
      parseNpmignore env (env.dirname p.filePath) false = some g →
      ∀ q, (getNpmignore env cache s).1 q =
        and' (filterNeverIgnoredFiles env p) g q) := by
  refine ⟨?_, ?_, ?_⟩
  · intro f g h1 h2 q
    simp [getNpmignore, hp, hc, h1, h2]
  · intro f h1 h2 q
    simp [getNpmignore, hp, hc, h1, h2]
  · intro g h1 h2 q
    simp [getNpmignore, hp, hc, h1, h2]

/-- C1 witness: in `envBoth` both predicates are produced and the resolved
match agrees with the composed predicate at `"x.js"`. -/
theorem getNpmignore_combinator_witness :
    envBoth.getPackageJson "start" = some pkgBoth ∧
    cacheGet [] pkgBoth.filePath = none ∧
    (getNpmignore envBoth [] "start").1 "x.js" =
      and' (filterNeverIgnoredFiles envBoth pkgBoth) (or' fBoth gBoth) "x.js" :=
  ⟨rfl, rfl,
    (getNpmignore_combinator envBoth [] "start" pkgBoth rfl rfl).1
      fBoth gBoth rfl rfl "x.js"⟩

/-- C2 counterexample: with `.npmignore` containing `*`, the bare filename
`"readme"` (no extension) IS reported ignorable — `NEVER_IGNORED` only
matches `readme` followed by a dot — refuting
`match("readme") === false` regardless of ignore-file content. -/
theorem protected_names_cex :
    (getNpmignore envStar [] "start").1 "readme" = true := by decide

/-- C2 (amended): for every fresh resolution, a path whose basename
matches `NEVER_IGNORED` — `readme` WITH an extension, or
`license`/`licence`/`changes`/`changelog`/`history` with one optional
extension, case-insensitively — is never reported ignorable; in
particular `match "README.md" = false` and `match "LICENSE" = false`,
while bare `"readme"` does not match the protected pattern. -/
theorem protected_names_never_ignorable (env : Env) (cache : CacheState)
    (s : String) (p : PackageJson) (hp : env.getPackageJson s = some p)
    (hc : cacheGet cache p.filePath = none) :
    (∀ q, NEVER_IGNORED (basename q) = true →
      (getNpmignore env cache s).1 q = false) ∧
    (getNpmignore env cache s).1 "README.md" = false ∧
    (getNpmignore env cache s).1 "LICENSE" = false ∧
    NEVER_IGNORED "readme" = false := by
  refine ⟨fun q hq => ?_, ?_, ?_, by decide⟩
  · exact match_eq_false_of_filter env cache s p hp hc q
      (filter_false_of_never env p q hq)
  · exact match_eq_false_of_filter env cache s p hp hc "README.md"
      (filter_false_of_never env p "README.md" (by decide))
  · exact match_eq_false_of_filter env cache s p hp hc "LICENSE"
      (filter_false_of_never env p "LICENSE" (by decide))

/-- C2 witness: instantiated in `envStar` (`.npmignore` containing `*`). -/
theorem protected_names_never_ignorable_witness :
    envStar.getPackageJson "start" = some pkgStar ∧
    cacheGet [] pkgStar.filePath = none ∧
    (getNpmignore envStar [] "start").1 "README.md" = false :=
  ⟨rfl, rfl,
    (protected_names_never_ignorable envStar [] "start" pkgStar rfl rfl).2.1⟩

/-- C3 counterexample: for an empty `files` array — an array with no valid
(string) entries — `parseWhiteList` returns a predicate (seeded with the
lone `*` pattern), not "no predicate", refuting the claimed equivalence. -/
theorem parseWhiteList_empty_array_cex :
    (parseWhiteList envStar (FilesField.arr [])).isSome = true := rfl

/-- C3 (amended): `parseWhiteList` returns "no predicate" exactly when the
`files` field is absent (falsy) or not an array; an array — even one with
no valid string entries — always yields a predicate. -/
theorem parseWhiteList_none_iff (env : Env) (files : FilesField) :
    parseWhiteList env files = none ↔
      files = FilesField.absent ∨ files = FilesField.notArray := by
  cases files <;> simp [parseWhiteList]

/-- C4: the ignore-file parser prefers `basedir/.npmignore` and compiles
it when present; when it is absent and the `files` field produced a
predicate it returns "no predicate" without consulting `.gitignore`;
when it is absent and no files predicate exists it falls back to
`basedir/.gitignore`, returning "no predicate" only when that is also
absent. -/
theorem parseNpmignore_spec (env : Env) (basedir : String) (ffe : Bool) :
    (env.existsFile (env.join basedir ".npmignore") = true →
      parseNpmignore env basedir ffe =
        some (not' (env.compileFile (env.join basedir ".npmignore")))) ∧
    (env.existsFile (env.join basedir ".npmignore") = false → ffe = true →
      parseNpmignore env basedir ffe = none) ∧
    (env.existsFile (env.join basedir ".npmignore") = false → ffe = false →
      env.existsFile (env.join basedir ".gitignore") = true →
      parseNpmignore env basedir ffe =
        some (not' (env.compileFile (env.join basedir ".gitignore")))) ∧
    (env.existsFile (env.join basedir ".npmignore") = false → ffe = false →
      env.existsFile (env.join basedir ".gitignore") = false →
      parseNpmignore env basedir ffe = none) := by
  refine ⟨fun h1 => ?_, fun h1 h2 => ?_, fun h1 h2 h3 => ?_, fun h1 h2 h3 => ?_⟩ <;>
    (try subst h2) <;> simp [parseNpmignore, h1]
  · simp [h3]
  · simp [h3]

/-- C4 witness: in `envStar` the `.npmignore` branch fires, and in
`envNone` with a files predicate present the parser yields "no predicate"
without looking at `.gitignore`. -/
theorem parseNpmignore_spec_witness :
    envStar.existsFile (envStar.join "pkg" ".npmignore") = true ∧
    parseNpmignore envStar "pkg" false =
      some (not' (envStar.compileFile (envStar.join "pkg" ".npmignore"))) ∧
    envNone.existsFile (envNone.join "pkg" ".npmignore") = false ∧
    parseNpmignore envNone "pkg" true = none :=
  ⟨rfl, (parseNpmignore_spec envStar "pkg" false).1 rfl,
   rfl, (parseNpmignore_spec envNone "pkg" true).2.1 rfl rfl⟩

/-- C5: the whitelist Pattern Set begins with the single universal-exclude
pattern `*`, then for every string entry `f`, in order, exactly the two
patterns `!f` and `!<f with trailing slashes stripped>/**`, skipping
non-string entries; and for an array `parseWhiteList` returns the logical
negation of the predicate compiled from that Pattern Set. -/
theorem parseWhiteList_patterns_spec (env : Env) (entries : List FilesEntry) :
    whiteListPatterns entries = "*" :: entries.flatMap entryPatterns ∧
    parseWhiteList env (FilesField.arr entries) =
      some (not' (env.compilePatterns (whiteListPatterns entries))) := by
  constructor
  · simpa using foldl_entryPatterns entries ["*"]
  · rfl

/-- C6: for every fresh resolution, the manifest's own file (the literal
relative path `"package.json"`) and the resolved main entry (any
candidate whose joined path equals `main` joined with the base directory)
are never reported ignorable. -/
theorem manifest_and_main_never_ignorable (env : Env) (cache : CacheState)
    (s : String) (p : PackageJson) (hp : env.getPackageJson s = some p)
    (hc : cacheGet cache p.filePath = none) :
    (getNpmignore env cache s).1 "package.json" = false ∧
    (∀ m q, p.main = some m →
      env.join (env.dirname p.filePath) q =
        env.join (env.dirname p.filePath) m →
      (getNpmignore env cache s).1 q = false) := by
  constructor
  · refine match_eq_false_of_filter env cache s p hp hc "package.json" ?_
    simp [filterNeverIgnoredFiles]
  · intro m q hm heq
    refine match_eq_false_of_filter env cache s p hp hc q ?_
    simp [filterNeverIgnoredFiles, hm, heq]

/-- C6 witness: the spec's own example — `.npmignore` containing `*` and
`main: "index.js"` — where `match "index.js" = false` and
`match "package.json" = false`. -/
theorem manifest_and_main_never_ignorable_witness :
    envStar.getPackageJson "start" = some pkgStar ∧
    cacheGet [] pkgStar.filePath = none ∧
    pkgStar.main = some "index.js" ∧
    (getNpmignore envStar [] "start").1 "package.json" = false ∧
    (getNpmignore envStar [] "start").1 "index.js" = false :=
  ⟨rfl, rfl, rfl,
    (manifest_and_main_never_ignorable envStar [] "start" pkgStar rfl rfl).1,
    (manifest_and_main_never_ignorable envStar [] "start" pkgStar rfl rfl).2
      "index.js" "index.js" rfl rfl⟩

/-- C7: when no manifest is found the resolved match is constantly
`false`; and when a manifest is found (cache miss) but neither a whitelist
predicate nor an ignore-file predicate is produced, the match is the
constant-false predicate. -/
theorem getNpmignore_default_false (env : Env) (cache : CacheState)
    (s : String) :
    (env.getPackageJson s = none →
      ∀ q, (getNpmignore env cache s).1 q = false) ∧
    (∀ p, env.getPackageJson s = some p → cacheGet cache p.filePath = none →
      parseWhiteList env p.files = none →
      parseNpmignore env (env.dirname p.filePath) false = none →
      ∀ q, (getNpmignore env cache s).1 q = false) := by
  constructor
  · intro h q
    simp [getNpmignore, h, alwaysFalse]
  · intro p hp hc h1 h2 q
    simp [getNpmignore, hp, hc, h1, h2, alwaysFalse]

/-- C7 witness: `envNone` has no manifest at `"other"` and a manifest with
neither predicate at `"start"`; both matches are `false` at `"a.js"`. -/
theorem getNpmignore_default_false_witness :
    envNone.getPackageJson "other" = none ∧
    (getNpmignore envNone [] "other").1 "a.js" = false ∧
    envNone.getPackageJson "start" = some pkgPlain ∧
    (getNpmignore envNone [] "start").1 "a.js" = false :=
  ⟨rfl, (getNpmignore_default_false envNone [] "other").1 rfl "a.js",
   rfl,
   (getNpmignore_default_false envNone [] "start").2 pkgPlain rfl rfl rfl
     rfl "a.js"⟩

/-- C8: after a call whose start path resolves to manifest `p`, the
returned Matcher is stored in the cache under `p.filePath`; a second call
resolving to the same manifest returns exactly the cached Matcher with
the cache state unchanged, so the two calls' match functions agree on
every input path. -/
theorem getNpmignore_cached (env : Env) (cache : CacheState)
    (s1 s2 : String) (p : PackageJson)
    (hp1 : env.getPackageJson s1 = some p)
    (hp2 : env.getPackageJson s2 = some p) :
    cacheGet (getNpmignore env cache s1).2 p.filePath =
      some (getNpmignore env cache s1).1 ∧
    getNpmignore env (getNpmignore env cache s1).2 s2 =
      ((getNpmignore env cache s1).1, (getNpmignore env cache s1).2) ∧
    (∀ q, (getNpmignore env (getNpmignore env cache s1).2 s2).1 q =
      (getNpmignore env cache s1).1 q) := by
  have h1 : cacheGet (getNpmignore env cache s1).2 p.filePath =
      some (getNpmignore env cache s1).1 := by
    simp only [getNpmignore, hp1]
    rcases hc : cacheGet cache p.filePath with _ | data
    · simp [cacheGet, cachePut]
    · simpa using hc
  have h2 : getNpmignore env (getNpmignore env cache s1).2 s2 =
      ((getNpmignore env cache s1).1, (getNpmignore env cache s1).2) := by
    obtain ⟨m, c', hr⟩ : ∃ m c', getNpmignore env cache s1 = (m, c') :=
      ⟨_, _, rfl⟩
    rw [hr] at h1 ⊢
    replace h1 : cacheGet c' p.filePath = some m := h1
    show getNpmignore env c' s2 = (m, c')
    simp [getNpmignore, hp2, h1]
  exact ⟨h1, h2, fun q => by rw [h2]⟩

/-- C8 witness: two consecutive calls in `envStar` agree at `"a.js"`, and
the first call's Matcher is found in the resulting cache. -/
theorem getNpmignore_cached_witness :
    envStar.getPackageJson "start" = some pkgStar ∧
    cacheGet (getNpmignore envStar [] "start").2 pkgStar.filePath =
      some (getNpmignore envStar [] "start").1 ∧
    (getNpmignore envStar (getNpmignore envStar [] "start").2 "start").1
        "a.js" =
      (getNpmignore envStar [] "start").1 "a.js" :=
  ⟨rfl,
   (getNpmignore_cached envStar [] "start" "start" pkgStar rfl rfl).1,
   (getNpmignore_cached envStar [] "start" "start" pkgStar rfl rfl).2.2
     "a.js"⟩

/-- C9: when the manifest's `main` field is absent (not a string), the
entry-file clause protects no path: the candidate's joined path (a
present value) never compares equal to the absent main path, the filter
degenerates to its other two clauses, and a path literally named
`"null"` stays eligible for ignoring. -/
theorem filterNeverIgnoredFiles_main_absent (env : Env) (p : PackageJson)
    (h : p.main = none) :
    (∀ q, (some (env.join (env.dirname p.filePath) q) !=
      p.main.map (env.join (env.dirname p.filePath))) = true) ∧
    (∀ q, filterNeverIgnoredFiles env p q =
      ((q != "package.json") && !(NEVER_IGNORED (basename q)))) ∧
    filterNeverIgnoredFiles env p "null" = true := by
  refine ⟨fun q => by simp [h],
    fun q => by simp [filterNeverIgnoredFiles, h, some_bne_none], ?_⟩
  simp [filterNeverIgnoredFiles, h, some_bne_none]
  all_goals decide

/-- C9 witness: `pkgPlain` has no `main`; the path `"null"` is not
protected by the (absent) entry-file clause. -/
theorem filterNeverIgnoredFiles_main_absent_witness :
    pkgPlain.main = none ∧
    filterNeverIgnoredFiles envNone pkgPlain "null" = true :=
  ⟨rfl, (filterNeverIgnoredFiles_main_absent envNone pkgPlain rfl).2.2⟩

/-- C10: the protected-name test is applied to the basename of the
candidate, so any path whose basename matches `NEVER_IGNORED` — e.g.
`"docs/CHANGELOG.md"` at depth — is never reported ignorable; by
contrast the manifest-file clause compares the whole relative path, so
`"sub/package.json"` is not protected by it (with `main` absent the
filter still reports it eligible for ignoring). -/
theorem never_ignored_uses_basename (env : Env) (cache : CacheState)
    (s : String) (p : PackageJson) (hp : env.getPackageJson s = some p)
    (hc : cacheGet cache p.filePath = none) :
    (∀ q, NEVER_IGNORED (basename q) = true →
      filterNeverIgnoredFiles env p q = false) ∧
    (getNpmignore env cache s).1 "docs/CHANGELOG.md" = false ∧
    (p.main = none →
      filterNeverIgnoredFiles env p "sub/package.json" = true) := by
  refine ⟨fun q hq => filter_false_of_never env p q hq, ?_, fun hm => ?_⟩
  · exact match_eq_false_of_filter env cache s p hp hc "docs/CHANGELOG.md"
      (filter_false_of_never env p "docs/CHANGELOG.md" (by decide))
  · simp [filterNeverIgnoredFiles, hm, some_bne_none]
    all_goals decide

/-- C10 witness: in `envNone` the deep path `"docs/CHANGELOG.md"` is not
ignorable while `"sub/package.json"` remains eligible. -/
theorem never_ignored_uses_basename_witness :
    envNone.getPackageJson "start" = some pkgPlain ∧
    cacheGet [] pkgPlain.filePath = none ∧
    pkgPlain.main = none ∧
    (getNpmignore envNone [] "start").1 "docs/CHANGELOG.md" = false ∧
    filterNeverIgnoredFiles envNone pkgPlain "sub/package.json" = true :=
  ⟨rfl, rfl, rfl,
   (never_ignored_uses_basename envNone [] "start" pkgPlain rfl rfl).2.1,
   (never_ignored_uses_basename envNone [] "start" pkgPlain rfl rfl).2.2
     rfl⟩

end GetNpmignore
